import Mathlib

/-!
Verification of the ipums2db row-processing pipeline.

This file is a shallow embedding of the Go sources of the repository:
the job planner (`MakeParsingJobsStream`), the row encoder
(`DatabaseFormatter`: `columnType`, `insertTuple`, `BulkInsert`,
`CreateMainTable`, `CreateRefTables`), the job configuration
(`NewJobConfig`), the dump writer (`NewDumpWriter`, `FileCleanup`,
`writeToDump`) and the parser workers (`DatParser.ParseBlocks`,
`ParseBlock`).  Byte slices are modelled as `List Char`, Go `int`
fields as `Int` where they may go negative and as `Nat` where they are
counters, file contents as `List Char`, and file-system effects as the
lists of paths created and removed.  Theorems about the specified
behaviour follow the definitions.
-/

set_option maxRecDepth 4096

/-! ## Data model: the schema dictionary (internal/*.go: DataDict, Var, Loc, Cat) -/

/-- Loc mirrors the Go struct `Loc`: 1-indexed inclusive byte span and width. -/
structure Loc where
  Start : Int
  End : Int
  Width : Int
deriving DecidableEq

/-- Cat mirrors the Go struct `Cat`: one coded value with its label. -/
structure Cat where
  Val : String
  Label : String
deriving DecidableEq

/-- VarFormat mirrors the Go struct `VarFormat`. -/
structure VarFormat where
  VarType : String
deriving DecidableEq

/-- Var mirrors the Go struct `Var`: one field of the data dictionary. -/
structure Var where
  Name : String
  Label : String
  VType : VarFormat
  DecimalPoint : Int
  Interval : String
  Location : Loc
  Cats : List Cat
deriving DecidableEq

/-- DataDict mirrors the Go struct `DataDict`. -/
structure DataDict where
  Vars : List Var
deriving DecidableEq

/-- BytesPerRow (src/unnamed: dbfmt part): the maximum `End` position over all
variables (starting from 0), plus one byte for the line terminator. -/
def BytesPerRow (dd : DataDict) : Nat :=
  ((dd.Vars.foldl (fun (acc : Int) (v : Var) => if acc < v.Location.End then v.Location.End else acc) 0).toNat) + 1

/-! ## Job planner (src/unnamed/part_002: MakeParsingJobsStream, ParsingJob) -/

/-- ParsingJob mirrors the Go struct `ParsingJob`. -/
structure ParsingJob where
  StartAtRow : Nat
  RowsToRead : Nat
deriving DecidableEq

/-- The loop of `MakeParsingJobsStream`: starting at `onRow`, emit jobs of
`rowsPerJob` rows until the remainder fits in one final job.  The guard
`0 < rowsPerJob` records that the Go loop only terminates when at least one
row is consumed per job, which the validation in `MakeParsingJobsStream`
guarantees (`maxBytesPerJob ≥ bytesPerRow`). -/
def jobsLoop (rowsPerJob totRows onRow : Nat) : List ParsingJob :=
  if _h : 0 < rowsPerJob ∧ onRow ≤ totRows then
    if totRows - onRow ≤ rowsPerJob then
      [⟨onRow, totRows - onRow⟩]
    else
      ⟨onRow, rowsPerJob⟩ :: jobsLoop rowsPerJob totRows (onRow + rowsPerJob)
  else []
termination_by totRows - onRow
decreasing_by
  simp_wf
  omega

/-- MakeParsingJobsStream (src/unnamed/part_002): validates the three sizing
constraints, then streams the jobs produced by the planning loop.  The
channel sends are modelled as the returned list, in send order. -/
def MakeParsingJobsStream (bytesPerRow totBytes maxBytesPerJob : Nat) :
    Except String (List ParsingJob) :=
  if maxBytesPerJob > totBytes then
    .error "maxBytesPerJob cannot be greater than totBytes"
  else if maxBytesPerJob < bytesPerRow then
    .error "maxBytesPerJob cannot be less than bytesPerRow"
  else if bytesPerRow > totBytes then
    .error "bytesPerRow cannot be greater than totBytes"
  else
    .ok (jobsLoop (maxBytesPerJob / bytesPerRow) (totBytes / bytesPerRow) 0)

/-- contiguousFrom n js: the jobs in js are contiguous, gap-free and
non-overlapping starting exactly at row n, each with a positive row count. -/
def contiguousFrom : Nat → List ParsingJob → Bool
  | _, [] => true
  | n, j :: js =>
    j.StartAtRow == n && j.RowsToRead != 0 && contiguousFrom (j.StartAtRow + j.RowsToRead) js

/-- lastJob js: the final job of a stream (a zero job for an empty stream). -/
def lastJob : List ParsingJob → ParsingJob
  | [] => ⟨0, 0⟩
  | [j] => j
  | _ :: j :: js => lastJob (j :: js)

theorem lastJob_cons (j j' : ParsingJob) (js : List ParsingJob) :
    lastJob (j :: j' :: js) = lastJob (j' :: js) := rfl

theorem jobsLoop_spec (r t : Nat) (hr : 0 < r) :
    ∀ fuel onRow, t - onRow ≤ fuel → onRow < t →
      jobsLoop r t onRow ≠ [] ∧
      contiguousFrom onRow (jobsLoop r t onRow) = true ∧
      (lastJob (jobsLoop r t onRow)).StartAtRow + (lastJob (jobsLoop r t onRow)).RowsToRead = t ∧
      (∀ j ∈ (jobsLoop r t onRow).dropLast, j.RowsToRead = r) := by
  intro fuel
  induction fuel with
  | zero =>
    intro onRow hf hlt
    omega
  | succ n ih =>
    intro onRow hf hlt
    rw [jobsLoop]
    rw [dif_pos ⟨hr, Nat.le_of_lt hlt⟩]
    by_cases hfit : t - onRow ≤ r
    · rw [if_pos hfit]
      refine ⟨by simp, ?_, ?_, ?_⟩
      · simp [contiguousFrom]
        omega
      · simp [lastJob]
        omega
      · intro j hj
        simp [List.dropLast] at hj
    · rw [if_neg hfit]
      have hlt' : onRow + r < t := by omega
      have hf' : t - (onRow + r) ≤ n := by omega
      obtain ⟨hne, hcont, hlast, hdrop⟩ := ih (onRow + r) hf' hlt'
      obtain ⟨x, xs, hx⟩ := List.exists_cons_of_ne_nil hne
      refine ⟨by simp, ?_, ?_, ?_⟩
      · simp [contiguousFrom, hcont]
        omega
      · rw [hx, lastJob_cons, ← hx]
        exact hlast
      · intro j hj
        rw [hx] at hj
        rw [List.dropLast_cons₂] at hj
        rcases List.mem_cons.mp hj with h1 | h2
        · rw [h1]
        · exact hdrop j (by rw [hx]; exact h2)

/-- C1: for every row width W ≥ 1, total byte count B and per-job limit L with
W ≤ L ≤ B (the validated range), `MakeParsingJobsStream` succeeds and emits a
non-empty stream of jobs that starts at row 0, is contiguous, strictly
increasing and non-overlapping, covers exactly the rows `[0, B / W)`, gives
every job but the last `L / W` rows, and gives the last job exactly the
remaining rows. -/
theorem makeParsingJobsStream_partitions (W B L : Nat)
    (hW : 1 ≤ W) (hWL : W ≤ L) (hLB : L ≤ B) :
    ∃ js, MakeParsingJobsStream W B L = .ok js ∧
      js ≠ [] ∧
      contiguousFrom 0 js = true ∧
      (lastJob js).StartAtRow + (lastJob js).RowsToRead = B / W ∧
      (∀ j ∈ js.dropLast, j.RowsToRead = L / W) ∧
      (lastJob js).RowsToRead = B / W - (lastJob js).StartAtRow := by
  have hWB : W ≤ B := le_trans hWL hLB
  have hr : 0 < L / W := Nat.div_pos hWL (by omega)
  have ht : 0 < B / W := Nat.div_pos hWB (by omega)
  refine ⟨jobsLoop (L / W) (B / W) 0, ?_, ?_⟩
  · unfold MakeParsingJobsStream
    rw [if_neg (by omega), if_neg (by omega), if_neg (by omega)]
  · obtain ⟨hne, hcont, hlast, hdrop⟩ :=
      jobsLoop_spec (L / W) (B / W) hr (B / W) 0 (by omega) ht
    exact ⟨hne, hcont, hlast, hdrop, by omega⟩

/-- Witness for C1 at the concrete input W = 2, B = 10, L = 4. -/
theorem makeParsingJobsStream_partitions_witness :
    ∃ js, MakeParsingJobsStream 2 10 4 = .ok js ∧
      js ≠ [] ∧
      contiguousFrom 0 js = true ∧
      (lastJob js).StartAtRow + (lastJob js).RowsToRead = 10 / 2 ∧
      (∀ j ∈ js.dropLast, j.RowsToRead = 4 / 2) ∧
      (lastJob js).RowsToRead = 10 / 2 - (lastJob js).StartAtRow :=
  makeParsingJobsStream_partitions 2 10 4 (by decide) (by decide) (by decide)

/-! ## Database formatter (src/unnamed/part_000: dialects and column types) -/

/-- getDataTypes (src/unnamed/part_000): maps the traditional types "int",
"float" and "string" to dialect-specific keywords; any lookup outside those
three keys yields the Go map zero value "". -/
def getDataTypes (dbType : String) : Except String (String → String) :=
  let base : String → String := fun t =>
    if t = "int" then "int"
    else if t = "float" then "numeric"
    else if t = "string" then "varchar"
    else ""
  let l := dbType.toLower
  if l = "postgres" ∨ l = "mssql" then .ok base
  else if l = "mysql" then .ok (fun t => if t = "float" then "decimal" else base t)
  else if l = "oracle" then
    .ok (fun t => if t = "float" then "number" else if t = "string" then "varchar2" else base t)
  else .error "dbType not in the supported database systems"

/-- DatabaseFormatter mirrors the Go struct `DatabaseFormatter`. -/
structure DatabaseFormatter where
  DbType : String
  TableName : String
  DataTypes : String → String
  mkddl : Bool

/-- NewDBFormatter (src/unnamed/part_000): rejects an empty table name and an
unrecognized database system. -/
def NewDBFormatter (dbType tableName : String) (mkddl : Bool) : Except String DatabaseFormatter :=
  if tableName.length = 0 then .error "tableName can not be empty"
  else
    match getDataTypes dbType with
    | .error e => .error ("could not get data types: " ++ e)
    | .ok dataTypes => .ok ⟨dbType, tableName, dataTypes, mkddl⟩

/-- maxPlacesFori32 (src/unnamed/part_000): INT columns are limited to widths
of at most ten decimal places. -/
def maxPlacesFori32 : Int := 10

/-- columnType (src/unnamed/part_000): character variables are strings;
variables with decimal places or width above `maxPlacesFori32` are floats;
everything else is an int. -/
def columnType (v : Var) : String :=
  if v.VType.VarType = "character" then "string"
  else if v.DecimalPoint > 0 ∨ v.Location.Width > maxPlacesFori32 then "float"
  else "int"

/-- columnTypes (src/unnamed/part_000): the Go map from variable name to its
column type, modelled as a lookup function (absent names map to the Go map
zero value ""; a duplicated name keeps the last variable's type, as the Go
map insertion does). -/
def columnTypes (ddi : DataDict) : String → String :=
  ddi.Vars.foldl (fun m v => fun n => if n = v.Name then columnType v else m n) (fun _ => "")

/-! ## Row encoder (src/unnamed/part_000: insertTuple, BulkInsert) -/

/-- extractChars row start e: the Go slice expression `row[start:end]` used by
`insertTuple`, for the already bounds-checked 0-indexed `start` and `end`. -/
def extractChars (row : List Char) (start e : Int) : List Char :=
  (row.drop start.toNat).take (e - start).toNat

/-- nullLit: the literal `null` emitted for blank-containing slices. -/
def nullLit : List Char := ['n', 'u', 'l', 'l']

/-- insertAt n c l: the Go `slices.Insert(l, n, c)` for a single element at an
in-range position (the out-of-range positions that make Go panic are never
reached by `insertTuple` on validated spans). -/
def insertAt : Nat → Char → List Char → List Char
  | 0, c, l => c :: l
  | _ + 1, _, [] => []
  | n + 1, c, x :: l => x :: insertAt n c l

/-- fieldValue colType v chars: the value text emitted by `insertTuple`
(src/unnamed/part_000) for one variable, from the extracted slice: `null` if
the slice contains a space byte, the quoted slice for strings, the slice with
an implied decimal point inserted for floats with decimal places (and the raw
slice for width-induced floats), the slice with leading zeros stripped for
ints, and the empty string for an unrecognized column type. -/
def fieldValue (colType : String) (v : Var) (chars : List Char) : List Char :=
  if ' ' ∈ chars then nullLit
  else if colType = "string" then '\'' :: (chars ++ ['\''])
  else if colType = "float" then
    if v.DecimalPoint ≠ 0 then
      insertAt ((chars.length : Int) - v.DecimalPoint).toNat '.' chars
    else chars
  else if colType = "int" then
    let t := chars.dropWhile (fun c => c == '0')
    if t = [] then ['0'] else t
  else []

/-- tupleFields colTypes vars row: the per-variable values produced by the
loop of `insertTuple`, with the Go bounds check `start < 0 || end > len(row)`
failing on the first offending variable. -/
def tupleFields (colTypes : String → String) : List Var → List Char → Except String (List (List Char))
  | [], _ => .ok []
  | v :: vs, row =>
    if v.Location.Start - 1 < 0 ∨ v.Location.End > (row.length : Int) then
      .error "startAt and endAt not valid index range for sliceLen"
    else
      match tupleFields colTypes vs row with
      | .error e => .error e
      | .ok rest =>
        .ok (fieldValue (colTypes v.Name) v
              (extractChars row (v.Location.Start - 1) v.Location.End) :: rest)

/-- sepJoin sep xs: xs joined with sep between consecutive elements. -/
def sepJoin (sep : List Char) : List (List Char) → List Char
  | [] => []
  | [x] => x
  | x :: y :: xs => x ++ sep ++ sepJoin sep (y :: xs)

/-- mkTuple fields: the text `insertTuple` builds around the field values:
a tab, the comma-joined values in parentheses, then a comma and newline. -/
def mkTuple (fields : List (List Char)) : List Char :=
  '\t' :: '(' :: (sepJoin [','] fields ++ [')', ',', '\n'])

/-- insertTuple (src/unnamed/part_000): one insertion tuple for one row. -/
def insertTuple (colTypes : String → String) (ddi : DataDict) (row : List Char) :
    Except String (List Char) :=
  match tupleFields colTypes ddi.Vars row with
  | .error e => .error e
  | .ok fs => .ok (mkTuple fs)

theorem tupleFields_ok (colTypes : String → String) (row : List Char) :
    ∀ vars : List Var,
      (∀ v ∈ vars, ¬(v.Location.Start - 1 < 0 ∨ v.Location.End > (row.length : Int))) →
      tupleFields colTypes vars row =
        .ok (vars.map fun v =>
          fieldValue (colTypes v.Name) v (extractChars row (v.Location.Start - 1) v.Location.End)) := by
  intro vars
  induction vars with
  | nil => intro _; rfl
  | cons v vs ih =>
    intro hok
    rw [tupleFields]
    rw [if_neg (hok v (by simp))]
    rw [ih (fun w hw => hok w (by simp [hw]))]
    simp

/-- pgFormatter: the postgres formatter produced by `NewDBFormatter` with the
default table name of the command line. -/
def pgFormatter : DatabaseFormatter :=
  { DbType := "postgres"
    TableName := "ipums_tab"
    DataTypes := fun t =>
      if t = "int" then "int"
      else if t = "float" then "numeric"
      else if t = "string" then "varchar"
      else ""
    mkddl := true }

/-- ageVar: a two-byte continuous numeric variable, span [1,2]. -/
def ageVar : Var :=
  { Name := "age", Label := "Age", VType := ⟨"numeric"⟩, DecimalPoint := 0,
    Interval := "contin", Location := ⟨1, 2, 2⟩, Cats := [] }

/-- sexVar: a one-byte discrete numeric variable, span [3,3]. -/
def sexVar : Var :=
  { Name := "sex", Label := "Sex", VType := ⟨"numeric"⟩, DecimalPoint := 0,
    Interval := "discrete", Location := ⟨3, 3, 1⟩,
    Cats := [⟨"1", "Male"⟩, ⟨"2", "Female"⟩] }

/-- ddiAgeSex: the two-variable dictionary of the spec's end-to-end scenario. -/
def ddiAgeSex : DataDict := ⟨[ageVar, sexVar]⟩

/-- C5: whenever the slice extracted for a variable contains a space byte,
`insertTuple` succeeds on bounds-valid spans and the value it emits for that
variable is the literal `null`, regardless of the variable's column type,
decimal-place count or interval kind. -/
theorem insertTuple_blank_is_null (colTypes : String → String) (ddi : DataDict)
    (row : List Char) (i : Nat) (hi : i < ddi.Vars.length)
    (hok : ∀ v ∈ ddi.Vars, ¬(v.Location.Start - 1 < 0 ∨ v.Location.End > (row.length : Int)))
    (hsp : ' ' ∈ extractChars row (ddi.Vars[i].Location.Start - 1) ddi.Vars[i].Location.End) :
    insertTuple colTypes ddi row =
      .ok (mkTuple (ddi.Vars.map fun v =>
        fieldValue (colTypes v.Name) v (extractChars row (v.Location.Start - 1) v.Location.End))) ∧
    fieldValue (colTypes (ddi.Vars[i].Name)) (ddi.Vars[i])
        (extractChars row (ddi.Vars[i].Location.Start - 1) ddi.Vars[i].Location.End) = nullLit := by
  constructor
  · rw [insertTuple, tupleFields_ok colTypes row ddi.Vars hok]
  · rw [fieldValue, if_pos hsp]

/-- Witness for C5: the spec's scenario row "01 " (blank sex value) emits
`null` for the sex variable. -/
theorem insertTuple_blank_is_null_witness :
    insertTuple (columnTypes ddiAgeSex) ddiAgeSex ("01 ".data) =
      .ok (mkTuple (ddiAgeSex.Vars.map fun v =>
        fieldValue ((columnTypes ddiAgeSex) v.Name) v
          (extractChars ("01 ".data) (v.Location.Start - 1) v.Location.End))) ∧
    fieldValue ((columnTypes ddiAgeSex) sexVar.Name) sexVar
        (extractChars ("01 ".data) (sexVar.Location.Start - 1) sexVar.Location.End) = nullLit :=
  insertTuple_blank_is_null (columnTypes ddiAgeSex) ddiAgeSex ("01 ".data) 1
    (by decide) (by decide) (by decide)

/-- C7: a variable whose format is not character, whose decimal-place count is
zero and whose width is within the int limit is classified as an int column,
and `insertTuple` emits its slice with all leading zero characters stripped,
falling back to the single character 0 when the slice is all zeros. -/
theorem insertTuple_int_strips_zeros (v : Var) (row : List Char)
    (h1 : v.VType.VarType ≠ "character") (h2 : v.DecimalPoint = 0)
    (h3 : ¬ v.Location.Width > maxPlacesFori32)
    (hb : ¬(v.Location.Start - 1 < 0 ∨ v.Location.End > (row.length : Int)))
    (hsp : ' ' ∉ extractChars row (v.Location.Start - 1) v.Location.End) :
    columnType v = "int" ∧
    insertTuple (columnTypes ⟨[v]⟩) ⟨[v]⟩ row =
      .ok (mkTuple
        [if (extractChars row (v.Location.Start - 1) v.Location.End).dropWhile (fun c => c == '0') = []
         then ['0']
         else (extractChars row (v.Location.Start - 1) v.Location.End).dropWhile (fun c => c == '0')]) := by
  have hct : columnType v = "int" := by
    rw [columnType, if_neg h1, if_neg (not_or.mpr ⟨by omega, h3⟩)]
  refine ⟨hct, ?_⟩
  have hok : ∀ w ∈ (DataDict.mk [v]).Vars,
      ¬(w.Location.Start - 1 < 0 ∨ w.Location.End > ((row.length : Int))) := by
    intro w hw
    rw [List.mem_singleton.mp hw]
    exact hb
  rw [insertTuple, tupleFields_ok _ row _ hok]
  have hl : columnTypes ⟨[v]⟩ v.Name = columnType v := by
    simp [columnTypes]
  simp only [List.map]
  rw [hl, hct, fieldValue, if_neg hsp]
  rw [if_neg (by decide : ¬("int" : String) = "string")]
  rw [if_neg (by decide : ¬("int" : String) = "float")]
  rw [if_pos (by decide : ("int" : String) = "int")]

/-- zerosVar: a three-byte continuous numeric variable, span [1,3]. -/
def zerosVar : Var :=
  { Name := "z", Label := "Zeros", VType := ⟨"numeric"⟩, DecimalPoint := 0,
    Interval := "contin", Location := ⟨1, 3, 3⟩, Cats := [] }

/-- ddiZeros: a dictionary with the single variable `zerosVar`. -/
def ddiZeros : DataDict := ⟨[zerosVar]⟩

/-- Witness for C7: raw 000 renders as 0 and raw 007 renders as 7. -/
theorem insertTuple_int_strips_zeros_witness :
    insertTuple (columnTypes ddiZeros) ddiZeros ("000".data) = .ok ("\t(0),\n".data) ∧
    insertTuple (columnTypes ddiZeros) ddiZeros ("007".data) = .ok ("\t(7),\n".data) :=
  ⟨(insertTuple_int_strips_zeros zerosVar ("000".data)
      (by decide) (by decide) (by decide) (by decide) (by decide)).2,
   (insertTuple_int_strips_zeros zerosVar ("007".data)
      (by decide) (by decide) (by decide) (by decide) (by decide)).2⟩

/-- readAt file off size: the Go `ReadAt` into a zeroed buffer of `size`
bytes, tolerating an end-of-file short read as `BulkInsert` does: bytes past
the end of the file keep the buffer's zero value. -/
def readAt (file : List Char) (off size : Nat) : List Char :=
  let got := (file.drop off).take size
  got ++ List.replicate (size - got.length) (Char.ofNat 0)

/-- joinAll ts: concatenation of the per-row tuple texts, as the Go loop of
`BulkInsert` appends them. -/
def joinAll : List (List Char) → List Char
  | [] => []
  | t :: ts => t ++ joinAll ts

/-- rowTuples colTypes ddi bpl n buf: the loop of `BulkInsert`
(src/unnamed/part_000) over the `n` rows of `buf` (whose length is
`n * bpl`), producing one insertion tuple per `bpl`-byte row and failing on
the first row whose tuple cannot be built. -/
def rowTuples (colTypes : String → String) (ddi : DataDict) (bpl : Nat) :
    Nat → List Char → Except String (List (List Char))
  | 0, _ => .ok []
  | n + 1, buf =>
    match insertTuple colTypes ddi (buf.take bpl) with
    | .error e => .error ("error row: " ++ e)
    | .ok t =>
      match rowTuples colTypes ddi bpl n (buf.drop bpl) with
      | .error e => .error e
      | .ok rest => .ok (t :: rest)

/-- BulkInsert (src/unnamed/part_000): reads `numRows * BytesPerRow` bytes at
the job's offset, renders one tuple per row after the INSERT INTO header, and
overwrites the second-to-last byte (the final tuple's trailing comma) with a
semicolon. -/
def BulkInsert (dbf : DatabaseFormatter) (ddi : DataDict) (datFile : List Char)
    (startAtRow numRows : Nat) : Except String (List Char) :=
  let bytesPerLine := BytesPerRow ddi
  let off := bytesPerLine * startAtRow
  let buffer := readAt datFile off (numRows * bytesPerLine)
  let colTypes := columnTypes ddi
  let bulkInsertInit := ("INSERT INTO " ++ dbf.TableName ++ " VALUES\n").data
  match rowTuples colTypes ddi bytesPerLine numRows buffer with
  | .error e => .error e
  | .ok ts =>
    let stmt := bulkInsertInit ++ joinAll ts
    .ok (stmt.set (stmt.length - 2) ';')

theorem insertTuple_shape (colTypes : String → String) (ddi : DataDict)
    (row t : List Char) (h : insertTuple colTypes ddi row = .ok t) :
    ∃ fs, t = mkTuple fs := by
  rw [insertTuple] at h
  cases hft : tupleFields colTypes ddi.Vars row with
  | error e => rw [hft] at h; exact absurd h (by simp)
  | ok fs =>
    rw [hft] at h
    simp at h
    exact ⟨fs, h.symm⟩

theorem rowTuples_ok_shape (colTypes : String → String) (ddi : DataDict) (bpl : Nat) :
    ∀ n buf ts, rowTuples colTypes ddi bpl n buf = .ok ts →
      ts.length = n ∧ ∀ t ∈ ts, ∃ fs, t = mkTuple fs := by
  intro n
  induction n with
  | zero =>
    intro buf ts h
    rw [rowTuples] at h
    simp at h
    subst h
    exact ⟨rfl, by simp⟩
  | succ m ih =>
    intro buf ts h
    rw [rowTuples] at h
    cases hit : insertTuple colTypes ddi (buf.take bpl) with
    | error e => rw [hit] at h; exact absurd h (by simp)
    | ok t =>
      rw [hit] at h
      cases hrt : rowTuples colTypes ddi bpl m (buf.drop bpl) with
      | error e => rw [hrt] at h; exact absurd h (by simp)
      | ok rest =>
        rw [hrt] at h
        simp at h
        obtain ⟨hlen, hall⟩ := ih (buf.drop bpl) rest hrt
        constructor
        · rw [← h]; simp [hlen]
        · intro u hu
          rw [← h] at hu
          rcases List.mem_cons.mp hu with h1 | h2
          · exact h1 ▸ insertTuple_shape colTypes ddi (buf.take bpl) t hit
          · exact hall u h2

theorem joinAll_shaped :
    ∀ ts : List (List Char), ts ≠ [] → (∀ t ∈ ts, ∃ fs, t = mkTuple fs) →
      ∃ Ts : List (List Char), Ts.length = ts.length ∧
        (∀ T ∈ Ts, ∃ b, T = '\t' :: '(' :: (b ++ [')'])) ∧
        joinAll ts = sepJoin [',', '\n'] Ts ++ [',', '\n'] := by
  intro ts
  induction ts with
  | nil => intro h _; exact absurd rfl h
  | cons t rest ih =>
    intro _ hall
    obtain ⟨fs, hfs⟩ := hall t (by simp)
    cases rest with
    | nil =>
      refine ⟨['\t' :: '(' :: (sepJoin [','] fs ++ [')'])], by simp, ?_, ?_⟩
      · intro T hT
        rw [List.mem_singleton.mp hT]
        exact ⟨sepJoin [','] fs, rfl⟩
      · simp [joinAll, sepJoin, hfs, mkTuple]
    | cons t' rest' =>
      obtain ⟨Ts', hlen', hshape', hjoin'⟩ := ih (by simp) (fun u hu => hall u (by simp [hu]))
      obtain ⟨T', Ts'', hTs'⟩ : ∃ x xs, Ts' = x :: xs := by
        rcases Ts' with _ | ⟨x, xs⟩
        · simp at hlen'
        · exact ⟨x, xs, rfl⟩
      refine ⟨('\t' :: '(' :: (sepJoin [','] fs ++ [')'])) :: Ts', by simp [hlen'], ?_, ?_⟩
      · intro T hT
        rcases List.mem_cons.mp hT with h1 | h2
        · exact ⟨sepJoin [','] fs, h1⟩
        · exact hshape' T h2
      · rw [hTs']
        show t ++ joinAll (t' :: rest') = _
        rw [hjoin', hTs']
        rw [hfs, mkTuple]
        show '\t' :: '(' :: (sepJoin [','] fs ++ [')', ',', '\n']) ++ _ = _
        rw [sepJoin]
        simp

theorem set_after_pair (xs ys : List Char) (a b c : Char) :
    (xs ++ (ys ++ [a, b])).set (xs.length + ys.length) c = xs ++ (ys ++ [c, b]) := by
  induction xs with
  | nil =>
    simp only [List.nil_append, List.length_nil, Nat.zero_add]
    induction ys with
    | nil => rfl
    | cons y ys ihy => simp [List.set, ihy]
  | cons x xs ihx => simp [List.set, Nat.succ_add, ihx]

/-- C6: for every job of at least one row, a successful `BulkInsert` block is
exactly one INSERT INTO statement: the header, then one parenthesized tuple
per row joined by a comma and newline, with the final tuple followed by a
semicolon and newline instead of the trailing comma. -/
theorem bulkInsert_single_statement (dbf : DatabaseFormatter) (ddi : DataDict)
    (datFile : List Char) (startAtRow numRows : Nat) (s : List Char)
    (hn : 1 ≤ numRows)
    (h : BulkInsert dbf ddi datFile startAtRow numRows = .ok s) :
    ∃ Ts : List (List Char), Ts.length = numRows ∧
      (∀ T ∈ Ts, ∃ b, T = '\t' :: '(' :: (b ++ [')'])) ∧
      s = ("INSERT INTO " ++ dbf.TableName ++ " VALUES\n").data ++
            (sepJoin [',', '\n'] Ts ++ [';', '\n']) := by
  rw [BulkInsert] at h
  cases hrt : rowTuples (columnTypes ddi) ddi (BytesPerRow ddi) numRows
      (readAt datFile (BytesPerRow ddi * startAtRow) (numRows * BytesPerRow ddi)) with
  | error e => rw [hrt] at h; exact absurd h (by simp)
  | ok ts =>
    rw [hrt] at h
    simp only [Except.ok.injEq] at h
    obtain ⟨hlen, hall⟩ := rowTuples_ok_shape (columnTypes ddi) ddi (BytesPerRow ddi)
      numRows _ ts hrt
    have hne : ts ≠ [] := by
      intro hnil
      rw [hnil] at hlen
      simp at hlen
      omega
    obtain ⟨Ts, hTlen, hTshape, hTjoin⟩ := joinAll_shaped ts hne hall
    refine ⟨Ts, by omega, hTshape, ?_⟩
    rw [← h, hTjoin]
    have hidx :
        (("INSERT INTO " ++ dbf.TableName ++ " VALUES\n").data ++
            (sepJoin [',', '\n'] Ts ++ [',', '\n'])).length - 2 =
          ("INSERT INTO " ++ dbf.TableName ++ " VALUES\n").data.length +
            (sepJoin [',', '\n'] Ts).length := by
      simp [List.length_append]
      omega
    rw [hidx]
    exact set_after_pair (("INSERT INTO " ++ dbf.TableName ++ " VALUES\n").data)
      (sepJoin [',', '\n'] Ts) ',' '\n' ';'

/-- Witness for C6: a two-row job over `ddiZeros` yields one INSERT INTO
statement whose two tuples are comma-and-newline joined and whose final tuple
ends with a semicolon and newline. -/
theorem bulkInsert_single_statement_witness :
    ∃ Ts : List (List Char), Ts.length = 2 ∧
      (∀ T ∈ Ts, ∃ b, T = '\t' :: '(' :: (b ++ [')'])) ∧
      ("INSERT INTO ipums_tab VALUES\n\t(123),\n\t(456);\n").data =
        ("INSERT INTO " ++ pgFormatter.TableName ++ " VALUES\n").data ++
          (sepJoin [',', '\n'] Ts ++ [';', '\n']) :=
  bulkInsert_single_statement pgFormatter ddiZeros ("123\n456\n").data 0 2
    (("INSERT INTO ipums_tab VALUES\n\t(123),\n\t(456);\n").data) (by decide) rfl

/-! ## DDL generation (src/unnamed/part_000: CreateMainTable) -/

/-- colEscChr (src/unnamed/part_000): the identifier-quoting character per
database system (a backtick, written with an escape, for mysql). -/
def colEscChr (dbType : String) : String :=
  if dbType = "postgres" ∨ dbType = "oracle" ∨ dbType = "mssql" then "\""
  else if dbType = "mysql" then "\x60"
  else ""

/-- typeToUse (src/unnamed/part_000, CreateMainTable loop): the column type
text for one variable: float and string types carry their width (and decimal
count) parameters, ints use the bare keyword, and the unreachable default
contributes nothing. -/
def typeToUse (dbf : DatabaseFormatter) (v : Var) : String :=
  let ct := columnType v
  if ct = "float" then
    dbf.DataTypes "float" ++ "(" ++ toString v.Location.Width ++ "," ++ toString v.DecimalPoint ++ ")"
  else if ct = "string" then
    dbf.DataTypes "string" ++ "(" ++ toString v.Location.Width ++ ")"
  else if ct = "int" then dbf.DataTypes "int"
  else ""

/-- nameAndType (src/unnamed/part_000, CreateMainTable loop): one column line:
newline, tab, escaped lower-cased name, type, the comma for all but the last
column, then the label as a trailing comment. -/
def nameAndType (dbf : DatabaseFormatter) (v : Var) (addComma : String) : String :=
  "\n\t" ++ colEscChr dbf.DbType ++ v.Name.toLower ++ colEscChr dbf.DbType ++ " " ++
    typeToUse dbf v ++ addComma ++ "\t-- " ++ v.Label

/-- colLines: the loop body of `CreateMainTable`, appending every column's
line with a comma on all but the last column. -/
def colLines (dbf : DatabaseFormatter) : List Var → String
  | [] => ""
  | [v] => nameAndType dbf v ""
  | v :: v' :: vs => nameAndType dbf v "," ++ colLines dbf (v' :: vs)

/-- CreateMainTable (src/unnamed/part_000): the CREATE TABLE statement. -/
def CreateMainTable (dbf : DatabaseFormatter) (ddi : DataDict) : String :=
  "CREATE TABLE " ++ dbf.TableName ++ " (" ++ colLines dbf ddi.Vars ++ "\n);\n\n"

/-- C8: a non-character variable with zero decimal places and width above ten
is classified as a float column: `CreateMainTable` declares it with the
dialect's float keyword as floatType(Width,0), and `insertTuple` emits its
space-free slices verbatim, with no leading-zero stripping. -/
theorem wide_numeric_is_float (dbf : DatabaseFormatter) (v : Var)
    (h1 : v.VType.VarType ≠ "character") (h2 : v.DecimalPoint = 0)
    (h3 : v.Location.Width > maxPlacesFori32) :
    columnType v = "float" ∧
    typeToUse dbf v = dbf.DataTypes "float" ++ "(" ++ toString v.Location.Width ++ ",0)" ∧
    CreateMainTable dbf ⟨[v]⟩ =
      "CREATE TABLE " ++ dbf.TableName ++ " (" ++ nameAndType dbf v "" ++ "\n);\n\n" ∧
    ∀ chars : List Char, ' ' ∉ chars → fieldValue (columnType v) v chars = chars := by
  have hct : columnType v = "float" := by
    rw [columnType, if_neg h1, if_pos (Or.inr h3)]
  refine ⟨hct, ?_, rfl, ?_⟩
  · rw [typeToUse]
    simp only [hct, h2, if_true]
    rw [String.append_assoc, String.append_assoc]
    exact congrArg
      (fun z => dbf.DataTypes "float" ++ "(" ++ toString v.Location.Width ++ z)
      (by decide : ("," ++ (toString (0 : Int) ++ ")") : String) = ",0)")
  · intro chars hsp
    rw [hct, fieldValue, if_neg hsp]
    rw [if_neg (by decide : ¬("float" : String) = "string")]
    rw [if_pos (by decide : ("float" : String) = "float")]
    rw [if_neg (by simp [h2])]

/-- wideVar: an eleven-byte continuous numeric variable, span [1,11]. -/
def wideVar : Var :=
  { Name := "serial", Label := "Serial number", VType := ⟨"numeric"⟩, DecimalPoint := 0,
    Interval := "contin", Location := ⟨1, 11, 11⟩, Cats := [] }

/-- Witness for C8: `wideVar` (width 11) is a float column declared as
numeric(11,0) under postgres, and its all-zero slice is emitted verbatim. -/
theorem wide_numeric_is_float_witness :
    columnType wideVar = "float" ∧
    typeToUse pgFormatter wideVar = "numeric(11,0)" ∧
    fieldValue (columnType wideVar) wideVar ("00000000000").data = ("00000000000").data :=
  ⟨(wide_numeric_is_float pgFormatter wideVar (by decide) (by decide) (by decide)).1,
   ((wide_numeric_is_float pgFormatter wideVar (by decide) (by decide) (by decide)).2.1).trans
     (by decide),
   (wide_numeric_is_float pgFormatter wideVar (by decide) (by decide) (by decide)).2.2.2
     (("00000000000").data) (by decide)⟩

/-! ## Reference tables (src/unnamed/part_000 and the older src/internal/dbfmt.go) -/

/-- escapeQuotes: the Go `strings.ReplaceAll(label, "'", "''")`. -/
def escapeQuotes (s : String) : String :=
  ⟨s.data.foldr (fun c acc => if c = '\'' then '\'' :: '\'' :: acc else c :: acc) []⟩

/-- catRows cats: the category rows of a reference-table INSERT, one
`(val, 'label')` per category, comma separated with a newline after the last. -/
def catRows : List Cat → String
  | [] => ""
  | [c] => "\n\t(" ++ c.Val ++ ", '" ++ escapeQuotes c.Label ++ "')" ++ "\n"
  | c :: c' :: cs => "\n\t(" ++ c.Val ++ ", '" ++ escapeQuotes c.Label ++ "')" ++ "," ++ catRows (c' :: cs)

/-- refTableFor (src/unnamed/part_000, CreateRefTables loop): the CREATE TABLE
and seed INSERT statements for one discrete variable, with labels limited to
1000 characters. -/
def refTableFor (dbf : DatabaseFormatter) (v : Var) : String :=
  let tableName := "ref_" ++ v.Name.toLower
  "CREATE TABLE " ++ tableName ++ " (" ++
    ("\n\tval " ++ columnType v ++ ",\n\tlabel " ++ dbf.DataTypes "string" ++ "(1000)\n);\n\n") ++
    ("INSERT INTO " ++ tableName ++ " (val, label)\nVALUES" ++ catRows v.Cats ++ ";\n\n")

/-- joinStr: concatenation of the per-variable statement strings. -/
def joinStr : List String → String
  | [] => ""
  | s :: ss => s ++ joinStr ss

/-- CreateRefTables (src/unnamed/part_000): reference-table statements for
every discrete variable; an empty byte slice when there are none, with no
error return in its signature. -/
def CreateRefTables (dbf : DatabaseFormatter) (ddi : DataDict) : String :=
  joinStr (ddi.Vars.map fun v => if v.Interval = "discrete" then refTableFor dbf v else "")

/-- legacyRefTableFor (src/internal/dbfmt.go, CreateRefTables loop): the older
snapshot's statements for one discrete variable (int/text keywords and no
label-length parameter). -/
def legacyRefTableFor (dbf : DatabaseFormatter) (v : Var) : String :=
  let tableName := "ref_" ++ v.Name.toLower
  "CREATE TABLE " ++ tableName ++ " (" ++
    ("\n\tval " ++ dbf.DataTypes "int" ++ ",\n\tlabel " ++ dbf.DataTypes "string" ++ "\n);\n\n") ++
    ("INSERT INTO " ++ tableName ++ " (val, label)\nVALUES" ++ catRows v.Cats ++ ";\n\n")

/-- CreateRefTablesLegacy (src/internal/dbfmt.go): the older snapshot of
CreateRefTables, which counts the discrete variables and rejects a dictionary
with none of them. -/
def CreateRefTablesLegacy (dbf : DatabaseFormatter) (ddi : DataDict) : Except String String :=
  if (ddi.Vars.countP fun v => v.Interval == "discrete") = 0 then
    .error "zero discrete variables included"
  else
    .ok (joinStr (ddi.Vars.map fun v => if v.Interval = "discrete" then legacyRefTableFor dbf v else ""))

/-- ddiContinOnly: a dictionary whose variables are all continuous. -/
def ddiContinOnly : DataDict := ⟨[ageVar]⟩

/-- Counterexample to C4: on a dictionary with zero discrete variables, the
current `CreateRefTables` does not fail; it returns the empty byte slice (its
signature has no error result at all), while only the older snapshot
`CreateRefTablesLegacy` returned a descriptive error. -/
theorem createRefTables_no_discrete_counterexample :
    CreateRefTables pgFormatter ddiContinOnly = "" ∧
    CreateRefTablesLegacy pgFormatter ddiContinOnly = .error "zero discrete variables included" :=
  ⟨rfl, rfl⟩

/-- C4 (amended): against a dictionary containing zero discrete variables, the
current `CreateRefTables` produces no reference-table output and returns the
empty byte slice without any error, while the older snapshot
`CreateRefTablesLegacy` returned the descriptive error instead. -/
theorem createRefTables_no_discrete (dbf : DatabaseFormatter) (ddi : DataDict)
    (h : ∀ v ∈ ddi.Vars, v.Interval ≠ "discrete") :
    CreateRefTables dbf ddi = "" ∧
    CreateRefTablesLegacy dbf ddi = .error "zero discrete variables included" := by
  constructor
  · rw [CreateRefTables]
    have hmap : (ddi.Vars.map fun v => if v.Interval = "discrete" then refTableFor dbf v else "") =
        ddi.Vars.map fun _ => "" := by
      apply List.map_congr_left
      intro v hv
      rw [if_neg (h v hv)]
    rw [hmap]
    induction ddi.Vars with
    | nil => rfl
    | cons v vs ih => simpa [joinStr] using ih
  · rw [CreateRefTablesLegacy, if_pos]
    rw [List.countP_eq_zero]
    intro v hv
    simpa using h v hv

/-- Witness for C4 (amended) on a two-variable all-continuous dictionary. -/
theorem createRefTables_no_discrete_witness :
    CreateRefTables pgFormatter ⟨[ageVar, zerosVar]⟩ = "" ∧
    CreateRefTablesLegacy pgFormatter ⟨[ageVar, zerosVar]⟩ =
      .error "zero discrete variables included" :=
  createRefTables_no_discrete pgFormatter ⟨[ageVar, zerosVar]⟩ (by decide)

/-! ## Dump writer (src/unnamed/part_001: NewDumpWriter, writeToDump, FileCleanup) -/

/-- maxBytesPerFile (src/unnamed/part_001): ten gibibytes per output file. -/
def maxBytesPerFile : Nat := (2 ^ 30) * 10

/-- numOutFiles (src/unnamed/part_001): the number of output files for
`totBytes` bytes of fixed-width input: the quotient by `maxBytesPerFile`,
plus one more file when the remainder is positive. -/
def numOutFiles (totBytes : Nat) : Nat :=
  let remainderF := if totBytes % maxBytesPerFile > 0 then 1 else 0
  totBytes / maxBytesPerFile + remainderF

/-- trimSuffix: the Go `strings.TrimSuffix`, removing one occurrence of the
suffix when present (stated over the underlying character lists). -/
def trimSuffix (s sfx : String) : String :=
  if sfx.data.isSuffixOf s.data then ⟨s.data.take (s.data.length - sfx.data.length)⟩ else s

/-- dumpWriterSchemaPath: the schema file created by `NewDumpWriter`:
`name/ddl.sql` in directory mode, `name.sql` otherwise. -/
def dumpWriterSchemaPath (name : String) (makeItDir : Bool) : String :=
  if makeItDir then name ++ "/ddl.sql" else name ++ ".sql"

/-- dumpWriterShardPaths: the outFiles created by `NewDumpWriter`: the
`inserts_i.sql` shards inside the directory in directory mode, and the single
outFile (the same file as the schema file) otherwise. -/
def dumpWriterShardPaths (totBytes : Nat) (name : String) (makeItDir : Bool) : List String :=
  if makeItDir then
    (List.range (numOutFiles totBytes)).map fun i => name ++ "/inserts_" ++ toString i ++ ".sql"
  else [name ++ ".sql"]

/-- dumpWriterPaths: the file-system footprint of a successful `NewDumpWriter`
call (src/unnamed/part_001): the created directory, schema file and shard
files in directory mode, or the single combined file otherwise.  The
writerName first has a ".sql" suffix trimmed. -/
def dumpWriterPaths (totBytes : Nat) (writerName : String) (makeItDir : Bool) : List String :=
  let name := trimSuffix writerName ".sql"
  if makeItDir then
    name :: dumpWriterSchemaPath name true :: dumpWriterShardPaths totBytes name true
  else [dumpWriterSchemaPath name false]

/-- fileCleanupRemoved: the paths removed by `DumpWriter.FileCleanup`
(src/unnamed/part_001): the schema file and every outFile — and nothing
else; in particular the created directory is not removed. -/
def fileCleanupRemoved (totBytes : Nat) (writerName : String) (makeItDir : Bool) : List String :=
  let name := trimSuffix writerName ".sql"
  dumpWriterSchemaPath name makeItDir :: dumpWriterShardPaths totBytes name makeItDir

/-- remainingAfterCleanup: what `NewDumpWriter` created and `FileCleanup` did
not remove. -/
def remainingAfterCleanup (totBytes : Nat) (writerName : String) (makeItDir : Bool) : List String :=
  (dumpWriterPaths totBytes writerName makeItDir).filter
    fun p => !((fileCleanupRemoved totBytes writerName makeItDir).contains p)

/-- ParsedResult mirrors the Go struct `ParsedResult`: an optional block of
SQL text and an optional error. -/
structure ParsedResult where
  Block : Option (List Char)
  AnyError : Option String
deriving DecidableEq

/-- writeToDump (src/unnamed/part_001): a writer drains the result stream; a
result carrying an error, or a failed write (modelled by the `writeOK`
predicate on the block), stops it with a non-nil error; otherwise it finishes
cleanly. -/
def writeToDump (writeOK : List Char → Bool) : List ParsedResult → Except String Unit
  | [] => .ok ()
  | r :: rs =>
    match r.AnyError with
    | some e => .error ("encountered error parsing: " ++ e)
    | none =>
      if writeOK (r.Block.getD []) then writeToDump writeOK rs
      else .error "encountered error writing; deleting in-progress dump file"

/-- writeParsedResultsRemaining: the file-system footprint after
`DumpWriter.WriteParsedResults` (src/unnamed/part_001) processes a writer's
share of the result stream: on any writer error `FileCleanup` runs before the
process exits, otherwise all created paths are kept. -/
def writeParsedResultsRemaining (totBytes : Nat) (writerName : String) (makeItDir : Bool)
    (writeOK : List Char → Bool) (results : List ParsedResult) : List String :=
  match writeToDump writeOK results with
  | .ok _ => dumpWriterPaths totBytes writerName makeItDir
  | .error _ => remainingAfterCleanup totBytes writerName makeItDir

/-- C9: `numOutFiles` is exactly the round-up division of the total byte
volume by the fixed per-shard ceiling, and a volume of 25 units against the
10-unit ceiling (units of 2^30 bytes) creates exactly 3 shard files alongside
one schema file in the created directory. -/
theorem numOutFiles_round_up :
    (∀ totBytes : Nat,
      numOutFiles totBytes = (totBytes + (maxBytesPerFile - 1)) / maxBytesPerFile) ∧
    numOutFiles (25 * 2 ^ 30) = 3 ∧
    dumpWriterPaths (25 * 2 ^ 30) "dump" true =
      ["dump", "dump/ddl.sql", "dump/inserts_0.sql", "dump/inserts_1.sql", "dump/inserts_2.sql"] := by
  refine ⟨?_, by decide, by decide⟩
  intro totBytes
  rw [numOutFiles, maxBytesPerFile]
  split <;> omega

/-- C2: a result block carrying an error (left case) or a write failure
(right case) makes the receiving writer abort and run `FileCleanup`, which
deletes the schema file and every shard — but the created directory itself
remains on disk, so one artifact of the run is left behind. -/
theorem writeAbort_leaves_directory :
    writeParsedResultsRemaining (25 * 2 ^ 30) "dump" true (fun _ => true)
        [⟨none, some "parse failure"⟩] = ["dump"] ∧
    writeParsedResultsRemaining (25 * 2 ^ 30) "dump" true (fun _ => false)
        [⟨some ['x'], none⟩] = ["dump"] := by
  constructor <;> decide

/-! ## Parser workers (src/unnamed/part_000: DatParser.ParseBlocks; src/internal/workers.go: ParseBlock) -/

/-- resultOf: the `ParsedResult{Block: parsedBlock, AnyError: err}` pair the
workers build from a `BulkInsert` return. -/
def resultOf : Except String (List Char) → ParsedResult
  | .ok b => ⟨some b, none⟩
  | .error e => ⟨none, some e⟩

/-- parseBlocksWorker: one goroutine of `DatParser.ParseBlocks`
(src/unnamed/part_000).  `openResult` models `os.Open` (the file's contents
on success).  On an open error the goroutine returns at once: it sends no
result and consumes no job.  Otherwise it drains the job stream, sending one
result per job.  Returns the sent results and the number of jobs consumed. -/
def parseBlocksWorker (dbf : DatabaseFormatter) (ddi : DataDict)
    (openResult : Except String (List Char)) (jobs : List ParsingJob) :
    List ParsedResult × Nat :=
  match openResult with
  | .error _ => ([], 0)
  | .ok datFile =>
    (jobs.map fun job => resultOf (BulkInsert dbf ddi datFile job.StartAtRow job.RowsToRead),
     jobs.length)

/-- ParseBlock (src/internal/workers.go): the older standalone worker.  On an
open error it sends exactly one result carrying the error and returns without
consuming any job; otherwise it behaves as `parseBlocksWorker` does. -/
def ParseBlock (dbf : DatabaseFormatter) (ddi : DataDict)
    (openResult : Except String (List Char)) (jobs : List ParsingJob) :
    List ParsedResult × Nat :=
  match openResult with
  | .error e => ([⟨none, some e⟩], 0)
  | .ok datFile =>
    (jobs.map fun job => resultOf (BulkInsert dbf ddi datFile job.StartAtRow job.RowsToRead),
     jobs.length)

/-- Counterexample to C3: a `DatParser.ParseBlocks` worker that fails to open
the input file sends no `ParsedResult` at all (not exactly one with a non-nil
error): the failure is silent for the dump sink. -/
theorem parseBlocksWorker_open_failure_silent :
    (parseBlocksWorker pgFormatter ddiAgeSex (.error "open failed") [⟨0, 5⟩]).1 = [] ∧
    (parseBlocksWorker pgFormatter ddiAgeSex (.error "open failed") [⟨0, 5⟩]).1.length ≠ 1 :=
  ⟨rfl, by decide⟩

/-- C3 (amended): on an open failure the current `DatParser.ParseBlocks`
worker exits without consuming any job and without sending anything, while
the older standalone `ParseBlock` worker sends exactly one `ParsedResult`
whose error field is non-nil and likewise consumes no job. -/
theorem worker_open_failure_behaviour (dbf : DatabaseFormatter) (ddi : DataDict)
    (e : String) (jobs : List ParsingJob) :
    parseBlocksWorker dbf ddi (.error e) jobs = ([], 0) ∧
    ParseBlock dbf ddi (.error e) jobs = ([⟨none, some e⟩], 0) ∧
    (ParseBlock dbf ddi (.error e) jobs).1.length = 1 ∧
    ∀ r ∈ (ParseBlock dbf ddi (.error e) jobs).1, r.AnyError ≠ none :=
  ⟨rfl, rfl, rfl, by intro r hr; rw [List.mem_singleton.mp hr]; simp⟩

/-! ## Job configuration (src/internal/helpers.go: NewJobConfig) -/

/-- maxBytesofDatFileInMemory (src/internal/helpers.go): 100 MiB ceiling on
fixed-width file data in memory. -/
def maxBytesofDatFileInMemory : Int := (2 ^ 20) * 100

/-- JobConfig mirrors the Go struct `JobConfig`. -/
structure JobConfig where
  ParsedResChanSize : Int
  NumParsers : Int
  MaxBytesPerJob : Int
deriving DecidableEq

set_option linter.unusedVariables false in
/-- NewJobConfig (src/internal/helpers.go): chooses the parser count from the
host CPU count (`nCPU` models `runtime.NumCPU()`, always at least 1) and the
writer count, then sizes the result channel and the per-job byte budget.  The
declared bounds are MINPARSERS = 2 and MAXPARSERS = 5, but `nParsers` starts
at 1 and keeps that value when `nCPU = 1`, and `min(nCPU - nWriters - 1, 5)`
may also be 1.  As in the Go source, totBytes is accepted but unused. -/
def NewJobConfig (totBytes nWriters nCPU : Int) : JobConfig :=
  let nParsers : Int := 1
  let nParsers :=
    if nCPU > nParsers then
      let nCPUsSaveParseWrite := nCPU - nWriters - nParsers
      if nCPUsSaveParseWrite > 0 then min nCPUsSaveParseWrite 5 else 2
    else nParsers
  { ParsedResChanSize := nParsers
    NumParsers := nParsers
    MaxBytesPerJob := maxBytesofDatFileInMemory / (nParsers + nWriters) }

/-- C10: on a host with 3 CPUs and one writer (any total byte count), the
code chooses a single parser, below the fixed minimum of 2 that its own
comment and the specification require; the bound 2 ≤ parser count ≤ 5 fails. -/
theorem newJobConfig_below_minimum :
    (NewJobConfig 1000 1 3).NumParsers = 1 ∧
    ¬ 2 ≤ (NewJobConfig 1000 1 3).NumParsers ∧
    (NewJobConfig 1000 1 1).NumParsers = 1 := by
  refine ⟨?_, ?_, ?_⟩ <;> decide
